import Mathlib

/-
Shallow embedding of the polydatum method-dispatch pipeline
(src/polydatum/dal.py): path segments, deferred attribute requesters,
the middleware pipeline built by `DataAccessLayer.__init__`, the
`DalMethodResolverMiddleware` path walk, and service registration.

Python values that can appear as registry nodes are modelled by the
inductive `PyVal`; Python truthiness and callability are modelled by
`truthy` and `pyCallable`.  Python exceptions are modelled as `Except`
error values.
-/

namespace Polydatum

/-- `PathSegment` from dal.py: one named hop of a dotted attribute path,
carrying a name and arbitrary keyword meta properties (modelled as an
association list). -/
structure PathSegment where
  name : String
  meta : List (String × String) := []
  deriving DecidableEq, Repr

/-- Python values that can appear in the `_services` registry tree:
the root dict of services, service objects with named members, bound
methods (identified by a numeric id; their behaviour is supplied by a
call environment), and plain non-callable values including the falsy
`None`, `False`, `0` and `""`. -/
inductive PyVal where
  | pyDict : List (String × PyVal) → PyVal
  | pyObj : List (String × PyVal) → PyVal
  | pyMethod : Nat → PyVal
  | pyNone : PyVal
  | pyBool : Bool → PyVal
  | pyInt : Int → PyVal
  | pyStr : String → PyVal

/-- Python truthiness (`if service_or_method:`): `None`, `False`, zero,
empty strings and empty dicts are falsy; objects and methods are truthy. -/
def truthy : PyVal → Bool
  | .pyDict l => !l.isEmpty
  | .pyObj _ => true
  | .pyMethod _ => true
  | .pyNone => false
  | .pyBool b => b
  | .pyInt i => i != 0
  | .pyStr s => !s.isEmpty

/-- Python `callable(...)`: only methods are callable here (a bare
service object is not invocable in the resolver's sense). -/
def pyCallable : PyVal → Bool
  | .pyMethod _ => true
  | _ => false

/-- Raw member lookup used by one step of `walk_path`.  A dict node is
read with `.get(name)` (dal.py line 121).  A service object is read with
`getattr(service, name)` (dal.py line 124); that a missing member yields
absence rather than an `AttributeError` is the behaviour of the `Service`
base class, which is not among the sources — Modelled from the spec:
"look up the segment's name as a named member of that service", with the
walk treating a failed lookup as an absent node.  Values of other shapes
have no named members. -/
def memberLookup : PyVal → String → Option PyVal
  | .pyDict l, n => l.lookup n
  | .pyObj l, n => l.lookup n
  | _, _ => none

/-- The value the walk assigns to `service_or_method` after one lookup:
a missing key becomes Python `None`. -/
def lookupStep (cur : PyVal) (n : String) : PyVal :=
  (memberLookup cur n).getD .pyNone

/-- Remove a named member from a dict or object node (used to compare a
present-but-falsy node with a genuinely absent one). -/
def removeMember : PyVal → String → PyVal
  | .pyDict l, n => .pyDict (l.filter (fun p => p.1 != n))
  | .pyObj l, n => .pyObj (l.filter (fun p => p.1 != n))
  | v, _ => v

/-- The slice of a `DataAccessContext` the resolver reads: `request.ctx.dal._services`. -/
structure DataAccessContext where
  services : PyVal

/-- `DalMethodRequest` from dal.py: mutable request state for one call.
`dal_method` starts as Python `None` and is set by the resolver. -/
structure DalMethodRequest where
  ctx : DataAccessContext
  path : List PathSegment
  args : List PyVal
  kwargs : List (String × PyVal)
  dal_method : PyVal := .pyNone

/-- `DalMethodError` from dal.py: carries the request and an optional
path prefix (the constructor's `path` parameter defaults to `None`). -/
structure DalMethodError where
  request : DalMethodRequest
  path : Option (List PathSegment) := none

/-- Exceptions that can escape a dispatched call. `invalidMiddleware`
models the `InvalidMiddleware` configuration error raised at pipeline
construction (see `validate_middleware`). -/
inductive PyErr where
  | dalMethodError : DalMethodError → PyErr
  | assertionError : String → PyErr
  | typeError : PyErr
  | invalidMiddleware : String → PyErr

/-- The shape of a (possibly composed) request handler. -/
abbrev DalHandler (R : Type) : Type := DalMethodRequest → Except PyErr R

/-- The shape of one method middleware: `(request, handler) -> result`. -/
abbrev Middleware (R : Type) : Type := DalMethodRequest → DalHandler R → Except PyErr R

/-- The loop body of `DalMethodResolverMiddleware.walk_path` (dal.py
lines 106-127): starting from `cur` with the already-walked prefix
`loc`, produce the list of `(location, service_or_method)` pairs the
generator yields.  Once the current node is falsy the walk keeps
yielding `(location, None)` for every remaining segment. -/
def walkFrom (cur : PyVal) (loc : List PathSegment) : List PathSegment → List (List PathSegment × PyVal)
  | [] => []
  | s :: rest =>
    if truthy cur then
      (loc ++ [s], lookupStep cur s.name) :: walkFrom (lookupStep cur s.name) (loc ++ [s]) rest
    else
      (loc ++ [s], .pyNone) :: walkFrom cur (loc ++ [s]) rest

/-- `walk_path(request)`: the walk starts at `request.ctx.dal._services`
with an empty location. -/
def walk_path (req : DalMethodRequest) : List (List PathSegment × PyVal) :=
  walkFrom req.ctx.services [] req.path

/-- The value of the loop variable `service_or_method` after the `for`
loop in `resolve` consumes the whole walk (it keeps its previous value,
initially `None`, when the walk yields nothing). -/
def lastVal (last : PyVal) : List (List PathSegment × PyVal) → PyVal
  | [] => last
  | p :: rest => lastVal p.2 rest

/-- `DalMethodResolverMiddleware.resolve` (dal.py lines 129-136): scan
the walk; the first falsy yielded value raises `DalMethodError` carrying
the location yielded with it; otherwise return the last yielded value. -/
def resolveAux (req : DalMethodRequest) : PyVal → List (List PathSegment × PyVal) → Except DalMethodError PyVal
  | last, [] => .ok last
  | _, p :: rest =>
    if truthy p.2 then resolveAux req p.2 rest
    else .error { request := req, path := some p.1 }

/-- `resolve(request)` with `service_or_method` initialised to `None`. -/
def resolve (req : DalMethodRequest) : Except DalMethodError PyVal :=
  resolveAux req .pyNone (walk_path req)

/-- The last value yielded by the walk (Python `None` for an empty walk):
what `resolve` returns when no yielded value is falsy. -/
def finalValue (req : DalMethodRequest) : PyVal :=
  lastVal .pyNone (walk_path req)

/-- `DalMethodResolverMiddleware.__call__` (dal.py lines 138-150):
resolve, then if the result is truthy and callable store it in
`request.dal_method` and call the downstream handler, else raise
`DalMethodError(request)` with no path. -/
def resolver_call {R : Type} (req : DalMethodRequest) (handler : DalHandler R) : Except PyErr R :=
  match resolve req with
  | .error e => .error (.dalMethodError e)
  | .ok v =>
    if truthy v && pyCallable v then handler { req with dal_method := v }
    else .error (.dalMethodError { request := req, path := none })

/-- The resolver packaged as a middleware value. -/
def dalMethodResolverMiddleware {R : Type} : Middleware R :=
  fun req handler => resolver_call req handler

/-- `default_handle_dal_method` (dal.py lines 153-163): assert the
request has a truthy resolved method, then call it with the request's
args and kwargs.  `call` is the call environment giving each method id
its behaviour.  Calling a truthy non-callable is a `TypeError`. -/
def default_handle_dal_method {R : Type} (call : Nat → List PyVal → List (String × PyVal) → R) : DalHandler R :=
  fun req =>
    if truthy req.dal_method then
      match req.dal_method with
      | .pyMethod mid => .ok (call mid req.args req.kwargs)
      | _ => .error .typeError
    else .error (.assertionError ("DAL method not resolved"))

/-- The composition loop of `DataAccessLayer.__init__` (dal.py lines
190-193): fold the reversed middleware list around the terminal
handler.  `update_wrapper` only copies documentation attributes and has
no call semantics, so it is omitted. -/
def buildHandler {R : Type} (middleware : List (Middleware R)) (handler : DalHandler R) : DalHandler R :=
  middleware.reverse.foldl (fun acc m => fun req => m req acc) handler

/-- `DataAccessLayer.__init__` handler setup (dal.py lines 174-193):
`middleware = middleware or []`, append the default middleware, then
fold. -/
def dal_init_handler {R : Type} (middleware : Option (List (Middleware R)))
    (default_middleware : List (Middleware R)) (handler : DalHandler R) : DalHandler R :=
  buildHandler ((middleware.getD []) ++ default_middleware) handler

/-- The handler a `DataAccessLayer` built with all defaults dispatches
through: no user middleware, the resolver as the only default
middleware, `default_handle_dal_method` as terminal handler. -/
def dal_default_dispatch {R : Type} (call : Nat → List PyVal → List (String × PyVal) → R) : DalHandler R :=
  dal_init_handler none [dalMethodResolverMiddleware] (default_handle_dal_method call)

/-- `DalMethodRequester` (dal.py lines 67-99): a deferred path builder
holding the bound handler and the accumulated path.  The handler's type
is abstract; only its identity matters to the builder. -/
structure DalMethodRequester (H : Type) where
  handler : H
  path : List PathSegment

/-- `DalMethodRequester.__getattr__`: a fresh requester with the same
handler and the path extended by one new `PathSegment`. -/
def requester_getattr {H : Type} (r : DalMethodRequester H) (n : String) : DalMethodRequester H :=
  { handler := r.handler, path := r.path ++ [{ name := n }] }

/-- Extending a requester by a sequence of names, in order. -/
def requester_extend {H : Type} (r : DalMethodRequester H) (names : List String) : DalMethodRequester H :=
  names.foldl requester_getattr r

/-- The message of the assertion guarding `DataAccessLayer.__getattr__`. -/
def noActiveContextMsg : String := "A DataAccessContext must be started to access the DAL."

/-- `DataAccessLayer.__getattr__` (dal.py lines 236-238): assert an
active context, then return a requester bound to `self._call` whose path
is the single accessed name.  The registry (`services`) is taken as an
argument to record that the result does not depend on it. -/
def DataAccessLayer_getattr {H : Type} (services : List (String × PyVal))
    (activeCtx : Option DataAccessContext) (callHandler : H) (n : String) :
    Except PyErr (DalMethodRequester H) :=
  match services, activeCtx with
  | _, none => .error (.assertionError noActiveContextMsg)
  | _, some _ => .ok { handler := callHandler, path := [{ name := n }] }

/-- Modelled from the spec: a supplied middleware entry as seen by
pipeline construction — either a value satisfying the interceptor
contract (the tests' `MethodMiddleware`) or one that does not satisfy it
(tagged with its class name).  The `MethodMiddleware`/`InvalidMiddleware`
machinery is referenced by the tests but is not among the sources. -/
inductive SuppliedMiddleware (R : Type) where
  | methodMiddleware : Middleware R → SuppliedMiddleware R
  | notMiddleware : String → SuppliedMiddleware R

/-- Whether a supplied entry fails the interceptor contract. -/
def isNotMiddleware {R : Type} : SuppliedMiddleware R → Bool
  | .methodMiddleware _ => false
  | .notMiddleware _ => true

/-- The tag of a contract-violating entry, if it is one. -/
def suppliedTag {R : Type} : SuppliedMiddleware R → Option String
  | .methodMiddleware _ => none
  | .notMiddleware tag => some tag

/-- The underlying middleware of a contract-satisfying entry. -/
def suppliedToMw {R : Type} : SuppliedMiddleware R → Option (Middleware R)
  | .methodMiddleware m => some m
  | .notMiddleware _ => none

/-- Modelled from the spec: pipeline construction validates each
supplied interceptor against the interceptor contract, raising the
configuration error (`InvalidMiddleware`) for the first entry that does
not satisfy it; this check is absent from the sources under src/ and is
reconstructed from spec sections 4.2 and 7 and the repository tests. -/
def validate_middleware {R : Type} : List (SuppliedMiddleware R) → Except PyErr (List (Middleware R))
  | [] => .ok []
  | .methodMiddleware m :: rest => (validate_middleware rest).map (fun ms => m :: ms)
  | .notMiddleware tag :: _rest => .error (.invalidMiddleware tag)

/-- Modelled from the spec: `DataAccessLayer.__init__` with middleware
validation — validate the user-supplied middleware, then append the
default middleware and fold as in `dal_init_handler`. -/
def DataAccessLayer_init {R : Type} (middleware : Option (List (SuppliedMiddleware R)))
    (default_middleware : List (Middleware R)) (handler : DalHandler R) :
    Except PyErr (DalHandler R) :=
  (validate_middleware (middleware.getD [])).map
    (fun ms => buildHandler (ms ++ default_middleware) handler)

/-- A composed handler that never produces the construction-time
configuration error on a call. -/
def noInvalidErr {R : Type} (f : DalHandler R) : Prop :=
  ∀ (req : DalMethodRequest) (tag : String), f req ≠ .error (.invalidMiddleware tag)

/-- A middleware that never produces the configuration error itself,
whenever its downstream handler does not. -/
def mwNoInvalidErr {R : Type} (m : Middleware R) : Prop :=
  ∀ (req : DalMethodRequest) (next : DalHandler R), noInvalidErr next →
    ∀ (tag : String), m req next ≠ .error (.invalidMiddleware tag)

/-- `mwNoInvalidErr` for the valid part of a supplied entry. -/
def suppliedNoInvalid {R : Type} : SuppliedMiddleware R → Prop
  | .methodMiddleware m => mwNoInvalidErr m
  | .notMiddleware _ => True

/-- `AlreadyExistsException` raised by `register_services`, carrying the
conflicting key. -/
structure AlreadyExistsException where
  key : String
  deriving DecidableEq, Repr

/-- `DataAccessLayer.register_services` (dal.py lines 195-208): walk the
supplied entries in order; a key already registered raises
`AlreadyExistsException` immediately (leaving the registry as mutated so
far), otherwise the service is stored (`_init_service`; the service's
`setup` side effect does not change the registry).  Returns the final
registry together with the raised exception, if any. -/
def register_services (services : List (String × PyVal)) :
    List (String × PyVal) → List (String × PyVal) × Option AlreadyExistsException
  | [] => (services, none)
  | (key, service) :: rest =>
    if (services.lookup key).isSome then (services, some { key := key })
    else register_services (services ++ [(key, service)]) rest

/-- Observable events of one dispatched call: a middleware entering, the
terminal handler running, a middleware exiting. -/
inductive TraceEvent where
  | enter : Nat → TraceEvent
  | handlerRun : TraceEvent
  | leave : Nat → TraceEvent
  deriving DecidableEq, Repr

/-- A middleware labelled `i` that records its ingress and egress around
the downstream chain and does not short-circuit. -/
def traceMw (i : Nat) : Middleware (List TraceEvent) :=
  fun req next => (next req).map (fun evs => .enter i :: (evs ++ [.leave i]))

/-- A terminal handler that records its own run. -/
def traceHandler : DalHandler (List TraceEvent) :=
  fun _ => .ok [.handlerRun]

/-- Shorthand for a `PathSegment` with empty meta, as built by the
`__getattr__` methods. -/
def seg (n : String) : PathSegment := { name := n }

/-- The nested service tree of the repository's resolver tests:
`users -> profile -> sample -> example -> demo`, each level exposing a
method (method ids 1 through 5 bottom-up from `users`). -/
def demoService : PyVal := .pyObj [("demo_test_method", .pyMethod 5)]

/-- `example` service of the test tree. -/
def exampleService : PyVal := .pyObj [("demo", demoService), ("example_test_method", .pyMethod 4)]

/-- `sample` service of the test tree. -/
def sampleService : PyVal := .pyObj [("example", exampleService), ("sample_test_method", .pyMethod 3)]

/-- `profile` service of the test tree. -/
def profileService : PyVal := .pyObj [("sample", sampleService), ("profile_test_method", .pyMethod 2)]

/-- `users` service of the test tree. -/
def usersService : PyVal := .pyObj [("profile", profileService), ("user_test_method", .pyMethod 1)]

/-- The `_services` registry dict of the test tree. -/
def subServiceRegistry : PyVal := .pyDict [("users", usersService)]

/-- Build a request against a registry from a path, with sample args
and kwargs. -/
def mkRequest (services : PyVal) (path : List PathSegment) : DalMethodRequest :=
  { ctx := { services := services }, path := path,
    args := [.pyInt 7, .pyStr ("x")], kwargs := [("k", .pyBool true)] }

/-- A call environment returning the invoked method's id. -/
def natIdCall : Nat → List PyVal → List (String × PyVal) → Nat :=
  fun mid _ _ => mid

/-- The depth-5 success request of the resolver tests:
`users.profile.sample.example.demo.demo_test_method`. -/
def reqDepth5 : DalMethodRequest :=
  mkRequest subServiceRegistry
    [seg ("users"), seg ("profile"), seg ("sample"), seg ("example"), seg ("demo"),
      seg ("demo_test_method")]

/-- The failing request `users.invalid_service.invalid_method`. -/
def reqInvalidService : DalMethodRequest :=
  mkRequest subServiceRegistry [seg ("users"), seg ("invalid_service"), seg ("invalid_method")]

/-- The failing request `users.profile.sample.example.demo.invalid_method`. -/
def reqInvalidMethod : DalMethodRequest :=
  mkRequest subServiceRegistry
    [seg ("users"), seg ("profile"), seg ("sample"), seg ("example"), seg ("demo"),
      seg ("invalid_method")]

/-- A registry whose path `a.m` reaches a truthy but non-callable node. -/
def notCallableRegistry : PyVal := .pyDict [("a", .pyObj [("m", .pyStr ("hi"))])]

/-- A request resolving to a present, truthy, non-invocable final node. -/
def reqNotCallable : DalMethodRequest := mkRequest notCallableRegistry [seg ("a"), seg ("m")]

/-- A request with a zero-length path. -/
def reqEmptyPath : DalMethodRequest := mkRequest subServiceRegistry []

/-- A registry with a registered value `False`: present but falsy. -/
def falsyRegistry : PyVal := .pyDict [("flag", .pyBool false)]

/-- A request whose single segment reaches the present-but-falsy node. -/
def reqFalsyNode : DalMethodRequest := mkRequest falsyRegistry [seg ("flag")]

/-- A pass-through middleware used as a concrete valid interceptor. -/
def idMiddleware : Middleware Nat := fun req next => next req

/-- An initial registry holding the key `b`. -/
def regB : List (String × PyVal) := [("b", .pyMethod 0)]

/-- A registration call whose second entry collides with `regB`. -/
def entsAB : List (String × PyVal) := [("a", .pyMethod 1), ("b", .pyMethod 2)]

/-- Peeling one middleware off the composed handler: the head of the
supplied list is the outermost layer. -/
theorem buildHandler_cons {R : Type} (m : Middleware R) (mws : List (Middleware R)) (h : DalHandler R) :
    buildHandler (m :: mws) h = fun req => m req (buildHandler mws h) := by
  simp [buildHandler, List.reverse_cons, List.foldl_append]

/-- `resolveAux` characterised by the first falsy yield of the walk. -/
theorem resolveAux_spec (req : DalMethodRequest) (last : PyVal)
    (l : List (List PathSegment × PyVal)) :
    resolveAux req last l =
      match l.find? (fun p => !truthy p.2) with
      | some p => Except.error { request := req, path := some p.1 }
      | none => Except.ok (lastVal last l) := by
  induction l generalizing last with
  | nil => rfl
  | cons p rest ih =>
    cases htr : truthy p.2 with
    | true =>
      rw [List.find?_cons_of_neg _ (by simp [htr])]
      simp only [resolveAux, htr, if_true, lastVal]
      exact ih p.2
    | false =>
      rw [List.find?_cons_of_pos _ (by simp [htr])]
      simp [resolveAux, htr]

/-- `resolve` characterised by the first falsy yield of the walk. -/
theorem resolve_spec (req : DalMethodRequest) :
    resolve req =
      match (walk_path req).find? (fun p => !truthy p.2) with
      | some p => Except.error { request := req, path := some p.1 }
      | none => Except.ok (finalValue req) :=
  resolveAux_spec req .pyNone (walk_path req)

/-- The trace pipeline produces enters in supplied order, the handler
event, then exits in reverse order. -/
theorem trace_pipeline (ls : List Nat) (req : DalMethodRequest) :
    buildHandler (ls.map traceMw) traceHandler req =
      Except.ok (ls.map TraceEvent.enter ++ TraceEvent.handlerRun :: (ls.reverse.map TraceEvent.leave)) := by
  induction ls generalizing req with
  | nil => rfl
  | cons i ls ih =>
    rw [List.map_cons, buildHandler_cons]
    show traceMw i req (buildHandler (ls.map traceMw) traceHandler) = _
    rw [traceMw, ih req]
    simp [Except.map, List.append_assoc]

/-- `List.lookup` distributes over append through `Option.or`. -/
theorem lookup_append {β : Type} (l₁ l₂ : List (String × β)) (k : String) :
    (l₁ ++ l₂).lookup k = ((l₁.lookup k).or (l₂.lookup k)) := by
  induction l₁ with
  | nil => simp [List.lookup]
  | cons p rest ih =>
    rcases p with ⟨k₁, v₁⟩
    cases h : (k == k₁) <;> simp [List.lookup, h, ih]

/-- `find?` only depends on the predicate's values on the list. -/
theorem find?_congr_local {α : Type} (l : List α) (p q : α → Bool)
    (h : ∀ x ∈ l, p x = q x) : l.find? p = l.find? q := by
  induction l with
  | nil => rfl
  | cons a l ih =>
    have ha := h a (by simp)
    cases hq : q a with
    | true =>
      rw [List.find?_cons_of_pos _ (ha.trans hq), List.find?_cons_of_pos _ hq]
    | false =>
      rw [List.find?_cons_of_neg _ (by simp [ha, hq]), List.find?_cons_of_neg _ (by simp [hq])]
      exact ih (fun x hx => h x (by simp [hx]))

/-- `takeWhile` only depends on the predicate's values on the list. -/
theorem takeWhile_congr_local {α : Type} (l : List α) (p q : α → Bool)
    (h : ∀ x ∈ l, p x = q x) : l.takeWhile p = l.takeWhile q := by
  induction l with
  | nil => rfl
  | cons a l ih =>
    have ha := h a (by simp)
    cases hq : q a with
    | true =>
      simp only [List.takeWhile_cons, ha, hq, if_true]
      exact congrArg (a :: ·) (ih (fun x hx => h x (by simp [hx])))
    | false => simp [List.takeWhile_cons, ha, hq]

/-- Keys present before `register_services` are never overwritten. -/
theorem register_preserves (entries : List (String × PyVal)) (reg : List (String × PyVal))
    (k : String) (hk : (reg.lookup k).isSome = true) :
    ((register_services reg entries).1).lookup k = reg.lookup k := by
  induction entries generalizing reg with
  | nil => rfl
  | cons e rest ih =>
    rcases e with ⟨k₀, s₀⟩
    by_cases h₀ : (reg.lookup k₀).isSome = true
    · simp [register_services, h₀]
    · rw [register_services]
      simp only [h₀, if_false, Bool.false_eq_true]
      have hk' : ((reg ++ [(k₀, s₀)]).lookup k).isSome = true := by
        rw [lookup_append]
        rcases hsome : reg.lookup k with _ | v
        · rw [hsome] at hk; simp at hk
        · simp [hsome]
      have := ih (reg ++ [(k₀, s₀)]) hk'
      rw [this, lookup_append]
      rcases hsome : reg.lookup k with _ | v
      · rw [hsome] at hk; simp at hk
      · simp [hsome]

/-- With pairwise-distinct keys (as Python keyword arguments guarantee),
`register_services` raises exactly at the first key already registered
and appends exactly the entries that precede that first collision. -/
theorem register_spec (entries : List (String × PyVal)) (reg : List (String × PyVal))
    (hpw : entries.Pairwise (fun a b => a.1 ≠ b.1)) :
    (register_services reg entries).2 =
        ((entries.find? (fun p => (reg.lookup p.1).isSome)).map (fun p => { key := p.1 }))
      ∧ (register_services reg entries).1 =
        reg ++ entries.takeWhile (fun p => (reg.lookup p.1).isNone) := by
  induction entries generalizing reg with
  | nil => exact ⟨rfl, by simp [register_services]⟩
  | cons e rest ih =>
    rcases e with ⟨k₀, s₀⟩
    rcases List.pairwise_cons.mp hpw with ⟨hhead, htail⟩
    by_cases h₀ : ((reg.lookup k₀).isSome) = true
    · have hfind : List.find? (fun (p : String × PyVal) => (reg.lookup p.1).isSome)
          ((k₀, s₀) :: rest) = some (k₀, s₀) := List.find?_cons_of_pos _ h₀
      have hnone : ((reg.lookup k₀).isNone) = false := by
        rcases hsome : reg.lookup k₀ with _ | v
        · rw [hsome] at h₀; simp at h₀
        · simp
      constructor
      · rw [register_services]
        simp only [h₀, if_true]
        rw [hfind]
        rfl
      · rw [register_services]
        simp only [h₀, if_true]
        have htw : List.takeWhile (fun (p : String × PyVal) => (reg.lookup p.1).isNone)
            ((k₀, s₀) :: rest) = [] := by
          rw [List.takeWhile_cons]
          simp [hnone]
        rw [htw]
        simp
    · have h₀' : ((reg.lookup k₀).isNone) = true := by
        rcases hsome : reg.lookup k₀ with _ | v
        · rfl
        · rw [hsome] at h₀; simp at h₀
      have hagree : ∀ p ∈ rest,
          (fun (p : String × PyVal) => ((reg ++ [(k₀, s₀)]).lookup p.1).isSome)
            p = (fun (p : String × PyVal) => (reg.lookup p.1).isSome) p := by
        intro p hp
        have hne : p.1 ≠ k₀ := fun hEq => (hhead p hp) hEq.symm
        have : (([((k₀ : String), s₀)]).lookup p.1) = none := by
          have : (p.1 == k₀) = false := by
            simp [hne]
          simp [List.lookup, this]
        simp only [lookup_append, this]
        rcases hsome : reg.lookup p.1 with _ | v <;> simp
      have hagree' : ∀ p ∈ rest,
          (fun (p : String × PyVal) => ((reg ++ [(k₀, s₀)]).lookup p.1).isNone)
            p = (fun (p : String × PyVal) => (reg.lookup p.1).isNone) p := by
        intro p hp
        have hiso := hagree p hp
        simp only at hiso ⊢
        rcases hsome : List.lookup p.1 (reg ++ [(k₀, s₀)]) with _ | v <;>
          rcases hsome' : List.lookup p.1 reg with _ | v' <;>
            simp [hsome, hsome'] at hiso ⊢
      rcases ih (reg ++ [(k₀, s₀)]) htail with ⟨ih₁, ih₂⟩
      constructor
      · rw [register_services]
        simp only [h₀, if_false, Bool.false_eq_true]
        rw [ih₁, List.find?_cons_of_neg _ (by simp [h₀]),
          find?_congr_local rest _ _ hagree]
      · rw [register_services]
        simp only [h₀, if_false, Bool.false_eq_true]
        rw [ih₂, takeWhile_congr_local rest _ _ hagree',
          List.takeWhile_cons]
        simp [h₀', List.append_assoc]

/-- Validation succeeds on a contract-satisfying list and yields
exactly the underlying middleware, in order. -/
theorem validate_ok_of_valid {R : Type} (supplied : List (SuppliedMiddleware R))
    (h : ∀ s ∈ supplied, isNotMiddleware s = false) :
    validate_middleware supplied = .ok (supplied.filterMap suppliedToMw) := by
  induction supplied with
  | nil => rfl
  | cons s rest ih =>
    cases s with
    | methodMiddleware m =>
      rw [validate_middleware, ih (fun x hx => h x (by simp [hx]))]
      simp [Except.map, List.filterMap_cons, suppliedToMw]
    | notMiddleware tag =>
      have := h (.notMiddleware tag) (by simp)
      simp [isNotMiddleware] at this

/-- Validation fails with the first contract violation's tag. -/
theorem validate_err_of_tag {R : Type} (supplied : List (SuppliedMiddleware R)) (tag : String)
    (h : supplied.findSome? suppliedTag = some tag) :
    validate_middleware supplied = .error (.invalidMiddleware tag) := by
  induction supplied with
  | nil => simp [List.findSome?] at h
  | cons s rest ih =>
    cases s with
    | methodMiddleware m =>
      rw [List.findSome?_cons] at h
      simp only [suppliedTag] at h
      rw [validate_middleware, ih h]
      rfl
    | notMiddleware t =>
      rw [List.findSome?_cons] at h
      simp only [suppliedTag] at h
      cases h
      rfl

/-- If validation succeeds then every supplied entry satisfied the
contract and the result is the underlying middleware list. -/
theorem validate_ok_inv {R : Type} (supplied : List (SuppliedMiddleware R))
    (ms : List (Middleware R)) (h : validate_middleware supplied = .ok ms) :
    ms = supplied.filterMap suppliedToMw ∧ ∀ s ∈ supplied, isNotMiddleware s = false := by
  induction supplied generalizing ms with
  | nil =>
    cases h
    exact ⟨rfl, by simp⟩
  | cons s rest ih =>
    cases s with
    | methodMiddleware m =>
      rw [validate_middleware] at h
      rcases hrec : validate_middleware rest with e | ms'
      · rw [hrec] at h; simp [Except.map] at h
      · rw [hrec] at h
        simp only [Except.map] at h
        cases h
        rcases ih ms' hrec with ⟨h₁, h₂⟩
        constructor
        · simp [List.filterMap_cons, suppliedToMw, h₁]
        · intro x hx
          rcases List.mem_cons.mp hx with hEq | hmem
          · rw [hEq]; rfl
          · exact h₂ x hmem
    | notMiddleware t =>
      rw [validate_middleware] at h
      cases h

/-- A pipeline composed of middleware that never fabricate the
configuration error, around a terminal handler that never produces it,
never produces it on a call. -/
theorem buildHandler_noInvalid {R : Type} (mws : List (Middleware R)) (h : DalHandler R)
    (hmws : ∀ m ∈ mws, mwNoInvalidErr m) (hh : noInvalidErr h) :
    noInvalidErr (buildHandler mws h) := by
  induction mws with
  | nil => exact hh
  | cons m rest ih =>
    rw [buildHandler_cons]
    intro req tag
    exact hmws m (by simp) req (buildHandler rest h)
      (ih (fun x hx => hmws x (by simp [hx]))) tag

/-- Filtering out a key makes its lookup miss. -/
theorem lookup_filter_ne {β : Type} (l : List (String × β)) (n : String) :
    (l.filter (fun p => p.1 != n)).lookup n = none := by
  induction l with
  | nil => rfl
  | cons p rest ih =>
    rcases p with ⟨k, v⟩
    by_cases h : k = n
    · simp [List.filter_cons, h, ih]
    · have hb : ((k, v).1 != n) = true := by simp [h]
      have hb' : (n == k) = false := by
        simp
        exact fun e => h e.symm
      simp [List.filter_cons, hb, List.lookup, hb', ih]

/-- The default dispatch pipeline never produces the construction-time
configuration error. -/
theorem dispatch_no_invalid {S : Type} (call : Nat → List PyVal → List (String × PyVal) → S)
    (req : DalMethodRequest) (tag : String) :
    dal_default_dispatch call req ≠ .error (.invalidMiddleware tag) := by
  intro hEq
  have hEq' : resolver_call req (default_handle_dal_method call)
      = .error (.invalidMiddleware tag) := hEq
  rw [resolver_call] at hEq'
  rcases hres : resolve req with e | v <;> rw [hres] at hEq' <;> dsimp only at hEq'
  · simp at hEq'
  · by_cases htc : (truthy v && pyCallable v) = true
    · rw [if_pos htc] at hEq'
      rw [default_handle_dal_method] at hEq'
      by_cases htd : truthy ({ req with dal_method := v } : DalMethodRequest).dal_method = true
      · rw [if_pos htd] at hEq'
        rcases v with l | l | mid | _ | b | i | s <;> simp at hEq'
      · rw [if_neg htd] at hEq'
        simp at hEq'
    · rw [if_neg htc] at hEq'
      simp at hEq'

/-- Extending a requester accumulates the new segments in order and
keeps the bound handler. -/
theorem requester_extend_spec {H : Type} (names : List String) (b : DalMethodRequester H) :
    (requester_extend b names).path
        = b.path ++ names.map (fun n => ({ name := n } : PathSegment))
    ∧ (requester_extend b names).handler = b.handler := by
  induction names generalizing b with
  | nil => simp [requester_extend]
  | cons n rest ih =>
    rcases ih (requester_getattr b n) with ⟨h₁, h₂⟩
    constructor
    · show (requester_extend (requester_getattr b n) rest).path = _
      rw [h₁]
      simp [requester_getattr, List.append_assoc]
    · show (requester_extend (requester_getattr b n) rest).handler = _
      rw [h₂]
      rfl

/-- C1: the pipeline folds the reversed interceptor list around the
terminal handler, so the first-supplied interceptor is the outermost
layer, and a non-short-circuited call produces exactly the enter events
in supplied order, the handler event, then the exit events in reverse
order. -/
theorem middleware_onion_ordering :
    (∀ (R : Type) (m : Middleware R) (mws : List (Middleware R)) (h : DalHandler R)
        (req : DalMethodRequest),
      buildHandler (m :: mws) h req = m req (buildHandler mws h))
    ∧ ∀ (ls : List Nat) (req : DalMethodRequest),
      buildHandler (ls.map traceMw) traceHandler req =
        Except.ok (ls.map TraceEvent.enter
          ++ TraceEvent.handlerRun :: (ls.reverse.map TraceEvent.leave)) := by
  constructor
  · intro R m mws h req
    rw [buildHandler_cons]
  · exact trace_pipeline

/-- C2: when every walked node is present (truthy) and the final node is
a method, the resolver stores that method into `request.dal_method` and
calls the downstream handler on the updated request, and the default
dispatch pipeline returns the method's result applied to the request's
args and kwargs, unmodified, at every nesting depth. -/
theorem resolver_success_dispatch (R : Type)
    (call : Nat → List PyVal → List (String × PyVal) → R)
    (req : DalMethodRequest) (mid : Nat)
    (hall : ∀ p ∈ walk_path req, truthy p.2 = true)
    (hfin : finalValue req = .pyMethod mid) :
    (∀ (S : Type) (h : DalHandler S),
        resolver_call req h = h { req with dal_method := PyVal.pyMethod mid })
    ∧ dal_default_dispatch call req = Except.ok (call mid req.args req.kwargs) := by
  have hfind : (walk_path req).find? (fun p => !truthy p.2) = none :=
    List.find?_eq_none.mpr (fun p hp => by simp [hall p hp])
  have hres : resolve req = Except.ok (PyVal.pyMethod mid) := by
    rw [resolve_spec, hfind]
    dsimp only
    exact congrArg Except.ok hfin
  have hcall : ∀ (S : Type) (h : DalHandler S),
      resolver_call req h = h { req with dal_method := PyVal.pyMethod mid } := by
    intro S h
    rw [resolver_call, hres]
    rfl
  refine ⟨hcall, ?_⟩
  have hdd : dal_default_dispatch call req
      = resolver_call req (default_handle_dal_method call) := rfl
  rw [hdd, hcall R (default_handle_dal_method call)]
  rfl

/-- Witness for C2: the depth-5 call
`users.profile.sample.example.demo.demo_test_method(...)` returns the
demo method's result on its args and kwargs. -/
theorem resolver_success_dispatch_witness :
    dal_default_dispatch natIdCall reqDepth5
      = Except.ok (natIdCall 5 reqDepth5.args reqDepth5.kwargs) :=
  (resolver_success_dispatch Nat natIdCall reqDepth5 5 (by decide) rfl).2

/-- C5: starting a path on the facade with no active context fails with
the no-active-context assertion; with an active context it returns a
requester bound to the dispatch handler with the accessed name as sole
path segment; and the outcome is independent of the registry, so no
path walking or resolution is involved. -/
theorem no_active_context_guard (H : Type) (s₁ s₂ : List (String × PyVal))
    (callHandler : H) (n : String) (c : DataAccessContext) :
    DataAccessLayer_getattr s₁ none callHandler n
        = .error (.assertionError noActiveContextMsg)
    ∧ DataAccessLayer_getattr s₁ (some c) callHandler n
        = .ok { handler := callHandler, path := [{ name := n }] }
    ∧ ∀ (o : Option DataAccessContext),
        DataAccessLayer_getattr s₁ o callHandler n
          = DataAccessLayer_getattr s₂ o callHandler n := by
  refine ⟨rfl, rfl, ?_⟩
  intro o
  cases o <;> rfl

/-- C8: extending a requester by names appends exactly those segments in
order, preserves the bound handler, and sibling single-name extensions
with different names have different paths. -/
theorem requester_extension (H : Type) (b : DalMethodRequester H) (names : List String) :
    (requester_extend b names).path
        = b.path ++ names.map (fun n => ({ name := n } : PathSegment))
    ∧ (requester_extend b names).handler = b.handler
    ∧ ∀ (x y : String), x ≠ y →
        (requester_getattr b x).path ≠ (requester_getattr b y).path := by
  refine ⟨(requester_extend_spec names b).1, (requester_extend_spec names b).2, ?_⟩
  intro x y hxy hEq
  have hEq' : b.path ++ [({ name := x } : PathSegment)] = b.path ++ [{ name := y }] := hEq
  have hlast := List.append_cancel_left hEq'
  simp [PathSegment.mk.injEq] at hlast
  exact hxy hlast

/-- Witness for C8: sibling extensions by the names x and y of a
requester with handler 7 and empty path have different paths. -/
theorem requester_extension_witness :
    (requester_getattr { handler := (7 : Nat), path := [] } ("x")).path
      ≠ (requester_getattr { handler := (7 : Nat), path := [] } ("y")).path :=
  (requester_extension Nat { handler := 7, path := [] } []).2.2 ("x") ("y") (by decide)

/-- C9: a request with a zero-length path produces an empty walk (no
registry node is looked up) and the resolver rejects it with a
resolution error carrying no path, for every downstream handler (which
is therefore never invoked). -/
theorem empty_path_fails_fast (req : DalMethodRequest) (hpath : req.path = []) :
    walk_path req = []
    ∧ ∀ (R : Type) (h : DalHandler R),
        resolver_call req h
          = .error (.dalMethodError { request := req, path := none }) := by
  have hw : walk_path req = [] := by
    rw [walk_path, hpath]
    rfl
  refine ⟨hw, ?_⟩
  intro R h
  have hres : resolve req = Except.ok PyVal.pyNone := by
    rw [resolve, hw]
    rfl
  rw [resolver_call, hres]
  rfl

/-- Witness for C9: the empty-path request against the test registry. -/
theorem empty_path_fails_fast_witness :
    walk_path reqEmptyPath = []
    ∧ resolver_call reqEmptyPath (default_handle_dal_method natIdCall)
        = .error (.dalMethodError { request := reqEmptyPath, path := none }) :=
  ⟨(empty_path_fails_fast reqEmptyPath rfl).1,
    (empty_path_fails_fast reqEmptyPath rfl).2 Nat (default_handle_dal_method natIdCall)⟩

/-- Counterexample to C3: a path to a present, truthy, non-invocable
final node raises a resolution error that carries NO path prefix
(`path = None`), not the prefix up to and including the failing (final)
segment as the claim states. -/
theorem resolution_error_payload_cex :
    dal_default_dispatch natIdCall reqNotCallable
      = .error (.dalMethodError { request := reqNotCallable, path := none })
    ∧ (none : Option (List PathSegment)) ≠ some [seg ("a"), seg ("m")] :=
  ⟨rfl, by decide⟩

/-- C3 amended: the resolver raises a resolution error carrying the
request exactly when resolution fails, and the downstream handler is
then never invoked (the outcome is the same for every handler); when
some walked node is absent or falsy the error carries the prefix up to
and including the first failing segment; when every walked node is
truthy but the final value is not both truthy and callable (including
the empty path) the error carries no path prefix. -/
theorem resolution_error_reporting (R : Type) (req : DalMethodRequest) (h : DalHandler R) :
    (∀ p, (walk_path req).find? (fun q => !truthy q.2) = some p →
        resolver_call req h
          = .error (.dalMethodError { request := req, path := some p.1 }))
    ∧ ((walk_path req).find? (fun q => !truthy q.2) = none →
        (truthy (finalValue req) && pyCallable (finalValue req)) = false →
        resolver_call req h
          = .error (.dalMethodError { request := req, path := none }))
    ∧ ((walk_path req).find? (fun q => !truthy q.2) = none →
        (truthy (finalValue req) && pyCallable (finalValue req)) = true →
        resolver_call req h = h { req with dal_method := finalValue req }) := by
  refine ⟨?_, ?_, ?_⟩
  · intro p hp
    have hres : resolve req = .error { request := req, path := some p.1 } := by
      rw [resolve_spec, hp]
    rw [resolver_call, hres]
  · intro hn hf
    have hres : resolve req = .ok (finalValue req) := by
      rw [resolve_spec, hn]
    rw [resolver_call, hres]
    dsimp only
    rw [if_neg (by simp [hf])]
  · intro hn ht
    have hres : resolve req = .ok (finalValue req) := by
      rw [resolve_spec, hn]
    rw [resolver_call, hres]
    dsimp only
    rw [if_pos ht]

/-- Witness for C3 amended: `users.invalid_service.invalid_method`
errors with the prefix up to and including the first failing segment. -/
theorem resolution_error_reporting_witness :
    resolver_call reqInvalidService (default_handle_dal_method natIdCall)
      = .error (.dalMethodError
          { request := reqInvalidService,
            path := some [seg ("users"), seg ("invalid_service")] }) :=
  (resolution_error_reporting Nat reqInvalidService
      (default_handle_dal_method natIdCall)).1
    ([seg ("users"), seg ("invalid_service")], PyVal.pyNone) rfl

/-- Counterexample to C4: both failing test calls raise errors whose
carried prefix INCLUDES the first failing segment — two segments
(`users.invalid_service`), not one (`users`); and six segments, not the
five the claim states. -/
theorem resolution_failure_locality_cex :
    dal_default_dispatch natIdCall reqInvalidService
      = .error (.dalMethodError
          { request := reqInvalidService,
            path := some [seg ("users"), seg ("invalid_service")] })
    ∧ [seg ("users"), seg ("invalid_service")] ≠ [seg ("users")]
    ∧ dal_default_dispatch natIdCall reqInvalidMethod
      = .error (.dalMethodError
          { request := reqInvalidMethod,
            path := some [seg ("users"), seg ("profile"), seg ("sample"), seg ("example"),
              seg ("demo"), seg ("invalid_method")] })
    ∧ [seg ("users"), seg ("profile"), seg ("sample"), seg ("example"),
        seg ("demo"), seg ("invalid_method")]
      ≠ [seg ("users"), seg ("profile"), seg ("sample"), seg ("example"), seg ("demo")] :=
  ⟨rfl, by decide, rfl, by decide⟩

/-- C4 amended: `users.profile.sample.example.demo.invalid_method`
raises a resolution error whose carried prefix is the full six-segment
path up to and including the failing segment, and
`users.invalid_service.invalid_method` raises one whose carried prefix
is `users.invalid_service`. -/
theorem resolution_failure_locality_amended :
    dal_default_dispatch natIdCall reqInvalidMethod
      = .error (.dalMethodError
          { request := reqInvalidMethod,
            path := some [seg ("users"), seg ("profile"), seg ("sample"), seg ("example"),
              seg ("demo"), seg ("invalid_method")] })
    ∧ dal_default_dispatch natIdCall reqInvalidService
      = .error (.dalMethodError
          { request := reqInvalidService,
            path := some [seg ("users"), seg ("invalid_service")] }) :=
  ⟨rfl, rfl⟩

/-- Counterexample to C6: registering `(a, b)` against a registry that
already holds `b` raises the already-registered error, yet the entry
`a` from the failing call HAS been added — the registry is not left
unchanged. -/
theorem register_unchanged_cex :
    (register_services regB entsAB).2 = some { key := "b" }
    ∧ ((register_services regB entsAB).1).lookup ("a") = some (.pyMethod 1)
    ∧ (regB.lookup ("a")) = none :=
  ⟨rfl, rfl, rfl⟩

/-- C6 amended: registration never overwrites an existing entry (the
colliding name's previous service and every other pre-existing entry
remain present, unchanged); with pairwise-distinct supplied names (as
keyword arguments guarantee) it raises the already-registered error
exactly for the first supplied name already registered, and the final
registry is the original extended by exactly the supplied entries that
precede that first collision. -/
theorem register_collision_behaviour (reg entries : List (String × PyVal)) :
    (∀ k, (reg.lookup k).isSome = true →
        ((register_services reg entries).1).lookup k = reg.lookup k)
    ∧ (entries.Pairwise (fun a b => a.1 ≠ b.1) →
        ((register_services reg entries).2
            = ((entries.find? (fun p => (reg.lookup p.1).isSome)).map
                (fun p => { key := p.1 }))
          ∧ (register_services reg entries).1
            = reg ++ entries.takeWhile (fun p => (reg.lookup p.1).isNone))) :=
  ⟨fun k hk => register_preserves entries reg k hk,
    fun hpw => register_spec entries reg hpw⟩

/-- Witness for C6 amended: in the failing call, the first registration
of `b` stays intact and the error names `b`. -/
theorem register_collision_behaviour_witness :
    ((register_services regB entsAB).1).lookup ("b") = some (.pyMethod 0)
    ∧ (register_services regB entsAB).2 = some { key := "b" } :=
  ⟨((register_collision_behaviour regB entsAB).1 ("b") (by decide)).trans rfl,
    (((register_collision_behaviour regB entsAB).2 (by decide)).1).trans rfl⟩

/-- C7: pipeline construction accepts a middleware list exactly when
every supplied entry satisfies the interceptor contract, raising the
configuration error naming the first violating entry otherwise; a
successfully constructed pipeline built from components that do not
fabricate that error never produces it on a call, and the default
dispatch pipeline never produces it on any call. -/
theorem middleware_validation (R : Type) (supplied : List (SuppliedMiddleware R))
    (default_middleware : List (Middleware R)) (h : DalHandler R) :
    ((∀ s ∈ supplied, isNotMiddleware s = false) →
      DataAccessLayer_init (some supplied) default_middleware h
        = .ok (buildHandler (supplied.filterMap suppliedToMw ++ default_middleware) h))
    ∧ (∀ tag, supplied.findSome? suppliedTag = some tag →
      DataAccessLayer_init (some supplied) default_middleware h
        = .error (.invalidMiddleware tag))
    ∧ (∀ built, DataAccessLayer_init (some supplied) default_middleware h = .ok built →
        (∀ m ∈ default_middleware, mwNoInvalidErr m) →
        (∀ s ∈ supplied, suppliedNoInvalid s) → noInvalidErr h → noInvalidErr built)
    ∧ ∀ (S : Type) (call : Nat → List PyVal → List (String × PyVal) → S)
        (req : DalMethodRequest) (tag : String),
        dal_default_dispatch call req ≠ .error (.invalidMiddleware tag) := by
  refine ⟨?_, ?_, ?_, fun S call req tag => dispatch_no_invalid call req tag⟩
  · intro hvalid
    rw [DataAccessLayer_init]
    rw [show (some supplied).getD [] = supplied from rfl]
    rw [validate_ok_of_valid supplied hvalid]
    rfl
  · intro tag htag
    rw [DataAccessLayer_init]
    rw [show (some supplied).getD [] = supplied from rfl]
    rw [validate_err_of_tag supplied tag htag]
    rfl
  · intro built hok hdef hsup hh
    rw [DataAccessLayer_init] at hok
    rw [show (some supplied).getD [] = supplied from rfl] at hok
    rcases hval : validate_middleware (R := R) supplied with e | ms <;> rw [hval] at hok
    · simp [Except.map] at hok
    · simp only [Except.map] at hok
      cases hok
      rcases validate_ok_inv supplied ms hval with ⟨hms, _⟩
      apply buildHandler_noInvalid
      · intro m hm
        rcases List.mem_append.mp hm with hmem | hmem
        · rw [hms] at hmem
          rcases List.mem_filterMap.mp hmem with ⟨s, hs, hsm⟩
          cases s with
          | methodMiddleware m' =>
            cases hsm
            exact hsup (.methodMiddleware m) hs
          | notMiddleware t => cases hsm
        · exact hdef m hmem
      · exact hh

/-- Witness for C7: a supplied list whose second entry violates the
contract is rejected at construction with the configuration error
naming it. -/
theorem middleware_validation_witness :
    DataAccessLayer_init
        (some [SuppliedMiddleware.methodMiddleware idMiddleware,
          SuppliedMiddleware.notMiddleware ("FooMiddleware")])
        [dalMethodResolverMiddleware] (default_handle_dal_method natIdCall)
      = .error (.invalidMiddleware ("FooMiddleware")) :=
  (middleware_validation Nat
      [SuppliedMiddleware.methodMiddleware idMiddleware,
        SuppliedMiddleware.notMiddleware ("FooMiddleware")]
      [dalMethodResolverMiddleware] (default_handle_dal_method natIdCall)).2.1
    ("FooMiddleware") rfl

/-- C10: the walk tests presence by truthiness — a present but falsy
node makes resolution fail with exactly the same error location as when
that node is absent (removed), whether the node is intermediate
(`rest` nonempty) or final (`rest` empty), and at the request level the
resolver rejects such a path with the prefix ending at the falsy node,
for every downstream handler. -/
theorem falsy_node_as_absent (req : DalMethodRequest) (cur : PyVal) (loc : List PathSegment)
    (s : PathSegment) (rest : List PathSegment) (v : PyVal) (last : PyVal)
    (hcur : truthy cur = true) (hv : memberLookup cur s.name = some v)
    (hfalsy : truthy v = false) :
    resolveAux req last (walkFrom cur loc (s :: rest))
        = .error { request := req, path := some (loc ++ [s]) }
    ∧ resolveAux req last (walkFrom (removeMember cur s.name) loc (s :: rest))
        = .error { request := req, path := some (loc ++ [s]) }
    ∧ (req.ctx.services = cur → req.path = s :: rest →
        ∀ (R : Type) (h : DalHandler R),
          resolver_call req h
            = .error (.dalMethodError { request := req, path := some [s] })) := by
  have hstep : lookupStep cur s.name = v := by
    rw [lookupStep, hv]
    rfl
  have h₁ : resolveAux req last (walkFrom cur loc (s :: rest))
      = .error { request := req, path := some (loc ++ [s]) } := by
    rw [walkFrom, if_pos hcur, hstep, resolveAux]
    simp [hfalsy]
  have hrm : memberLookup (removeMember cur s.name) s.name = none := by
    rcases cur with l | l | mid | _ | b | i | str <;> simp [memberLookup] at hv ⊢
    · exact lookup_filter_ne l s.name
    · exact lookup_filter_ne l s.name
  have h₂ : resolveAux req last (walkFrom (removeMember cur s.name) loc (s :: rest))
      = .error { request := req, path := some (loc ++ [s]) } := by
    cases htr : truthy (removeMember cur s.name) with
    | true =>
      rw [walkFrom, if_pos htr, resolveAux]
      have : lookupStep (removeMember cur s.name) s.name = .pyNone := by
        rw [lookupStep, hrm]
        rfl
      simp [this, truthy]
    | false =>
      rw [walkFrom, if_neg (by simp [htr]), resolveAux]
      simp [truthy]
  refine ⟨h₁, h₂, ?_⟩
  intro hsvc hpath R h
  have hres : resolve req = .error { request := req, path := some [s] } := by
    rw [resolve, walk_path, hsvc, hpath]
    have := h₁
    rw [walkFrom, if_pos hcur, hstep, resolveAux]
    simp [hfalsy]
  rw [resolver_call, hres]

/-- Witness for C10: a registered value `False` is rejected exactly like
an absent service. -/
theorem falsy_node_as_absent_witness :
    resolver_call reqFalsyNode (default_handle_dal_method natIdCall)
      = .error (.dalMethodError { request := reqFalsyNode, path := some [seg ("flag")] }) :=
  (falsy_node_as_absent reqFalsyNode falsyRegistry [] (seg ("flag")) [] (.pyBool false)
      .pyNone rfl rfl rfl).2.2 rfl rfl Nat (default_handle_dal_method natIdCall)

end Polydatum
